import Mathlib

/-!
Shallow embedding of the LLM / Cloud API status dashboard
(`src/app_main.py`, `src/helpers.py`, `src/config.py`).

Python dictionaries holding status records are modelled as association
lists `List (String × String)` in the insertion order of the dict
literals; `List.lookup` models Python key access.  Python string
lowercasing (`str.lower`) is modelled by mapping `Char.toLower` over the
characters (the feeds and marker phrases involved are ASCII), and the
Python substring test `needle in hay` is modelled by `strContains`.
A fetch that raises inside the `try` block before any entry is read is
modelled by the `none` input; a feed that parses with zero entries is
the `some []` input.
-/

namespace Dashboard

/-- Model of the Python membership test on lists of characters:
`leadsList a b` holds when `a` is an initial segment of `b`. -/
def leadsList : List Char → List Char → Bool
  | [], _ => true
  | _ :: _, [] => false
  | a :: as, b :: bs => a == b && leadsList as bs

/-- `containsSubList n h` holds when `n` occurs contiguously inside `h`. -/
def containsSubList (needle : List Char) : List Char → Bool
  | [] => needle.isEmpty
  | c :: rest => leadsList needle (c :: rest) || containsSubList needle rest

/-- Model of the Python test `needle in hay` on strings. -/
def strContains (hay needle : String) : Bool :=
  containsSubList needle.data hay.data

/-- Model of the Python `str.lower()` (ASCII content). -/
def lowerStr (s : String) : String :=
  ⟨s.data.map Char.toLower⟩

/-- One parsed feed entry as used by the helpers: feedparser entries
expose `title`, `link`, `description` and (for Atom feeds) a first
content value. -/
structure FeedEntry where
  title : String
  link : String
  description : String
  contentValue : String
deriving Repr, DecidableEq

/-- Placeholder issue link used by every fallback record in
`src/helpers.py`. -/
def placeholderIssueLink : String :=
  "Refer to status page as no specific link is available"

/-- Retry configuration installed on the shared session,
`src/helpers.py` lines 46-50. -/
structure RetryConfig where
  total : Nat
  backoff_factor : Nat
  status_forcelist : List Nat
deriving Repr, DecidableEq

/-- The `Retry` strategy configured in `get_http_session`
(`src/helpers.py` lines 46-50). -/
def http_session_retry : RetryConfig :=
  { total := 3, backoff_factor := 1, status_forcelist := [429, 500, 502, 503, 504] }

/-- The `timeout` attribute set on the shared session
(`src/helpers.py` line 64). -/
def http_session_timeout_attr : Nat := 10

/-- How each helper in `src/helpers.py` retrieves its document:
through the shared pooled `requests` session of `get_http_session`
(`session.get`), by handing the URL straight to `feedparser.parse`,
or through a headless Chrome driver. -/
inductive FetchMethod where
  | pooledSession
  | feedparserDirect
  | chromeDriver
deriving Repr, DecidableEq

/-- Transcription of the fetch call made by each status helper:
`get_openai_status` (line 230-231) and `get_deepseek_status`
(lines 286-287) call `get_http_session()` and `session.get(rss_url)`;
`get_llamaindex_status` (lines 402-403) also uses the session;
`get_langsmith_status` (line 345), `get_perplexity_status` (line 800),
`get_anthropic_status` (line 853), `get_gcp_status` (line 910),
`get_azure_status` (line 958) and `get_aws_status` (line 1007) call
`feedparser.parse(rss_url)` on the URL directly; `get_gemini_status`,
`get_dify_status` and `get_alicloud_status` drive a Chrome driver. -/
def fetch_method : String → FetchMethod
  | "openai" => .pooledSession
  | "deepseek" => .pooledSession
  | "llamaindex" => .pooledSession
  | "langsmith" => .feedparserDirect
  | "perplexity" => .feedparserDirect
  | "anthropic" => .feedparserDirect
  | "gcp" => .feedparserDirect
  | "azure" => .feedparserDirect
  | "aws" => .feedparserDirect
  | "gemini" => .chromeDriver
  | "dify" => .chromeDriver
  | "alicloud" => .chromeDriver
  | _ => .feedparserDirect

/-- `status_url` of the OpenAI helper, `src/helpers.py` line 229. -/
def openai_status_url : String := "https://status.openai.com"

/-- Fallback record of `get_openai_status`, lines 258-266. -/
def openai_fallback : List (String × String) :=
  [("name", "OpenAI API Status"), ("status", "Unknown"),
   ("status_url", openai_status_url), ("issue_link", placeholderIssueLink)]

/-- `get_openai_status`, `src/helpers.py` lines 212-266: operational iff
the lowercased description of the latest entry contains the phrase
"all impacted services have now fully recovered"; empty feed or an
exception falls through to the Unknown fallback. -/
def get_openai_status (fetched : Option (List FeedEntry)) : List (String × String) :=
  match fetched with
  | some (latest :: _) =>
      let isOp := strContains (lowerStr latest.description)
        "all impacted services have now fully recovered"
      [("name", "OpenAI API Status"),
       ("status", if isOp then "Operational" else "Disrupted"),
       ("status_url", openai_status_url),
       ("issue_link", latest.link)]
  | some [] => openai_fallback
  | none => openai_fallback

/-- Fallback record of `get_deepseek_status`, lines 317-325. -/
def deepseek_fallback : List (String × String) :=
  [("name", "Deepseek API Status"), ("status", "Unknown"),
   ("status_url", "https://status.deepseek.com"), ("issue_link", placeholderIssueLink)]

/-- `get_deepseek_status`, `src/helpers.py` lines 268-325: operational
iff the lowercased first content value of the latest entry contains
"resolved". -/
def get_deepseek_status (fetched : Option (List FeedEntry)) : List (String × String) :=
  match fetched with
  | some (latest :: _) =>
      let isOp := strContains (lowerStr latest.contentValue) "resolved"
      [("name", "Deepseek API Status"),
       ("status", if isOp then "Operational" else "Disrupted"),
       ("status_url", "https://status.deepseek.com"),
       ("issue_link", latest.link)]
  | some [] => deepseek_fallback
  | none => deepseek_fallback

/-- Fallback record of `get_langsmith_status`, lines 372-380. -/
def langsmith_fallback : List (String × String) :=
  [("name", "Langsmith US"), ("status", "Unknown"),
   ("status_url", "https://status.smith.langchain.com"),
   ("issue_link", placeholderIssueLink)]

/-- `get_langsmith_status`, `src/helpers.py` lines 327-380: operational
iff the lowercased description of the latest entry contains "resolved". -/
def get_langsmith_status (fetched : Option (List FeedEntry)) : List (String × String) :=
  match fetched with
  | some (latest :: _) =>
      let isOp := strContains (lowerStr latest.description) "resolved"
      [("name", "Langsmith US"),
       ("status", if isOp then "Operational" else "Disrupted"),
       ("status_url", "https://status.smith.langchain.com"),
       ("issue_link", latest.link)]
  | some [] => langsmith_fallback
  | none => langsmith_fallback

/-- Fallback record of `get_anthropic_status`, lines 878-886. -/
def anthropic_fallback : List (String × String) :=
  [("name", "Anthropic API Status"), ("status", "Unknown"),
   ("status_url", "https://status.anthropic.com"),
   ("issue_link", placeholderIssueLink)]

/-- `get_anthropic_status`, `src/helpers.py` lines 835-886: operational
iff the lowercased description of the latest entry contains "resolved". -/
def get_anthropic_status (fetched : Option (List FeedEntry)) : List (String × String) :=
  match fetched with
  | some (latest :: _) =>
      let isOp := strContains (lowerStr latest.description) "resolved"
      [("name", "Anthropic API Status"),
       ("status", if isOp then "Operational" else "Disrupted"),
       ("status_url", "https://status.anthropic.com"),
       ("issue_link", latest.link)]
  | some [] => anthropic_fallback
  | none => anthropic_fallback

/-- `get_perplexity_status`, `src/helpers.py` lines 782-833.  On a feed
with entries it classifies from the latest description: operational iff
it contains "resolved" and does not contain "api outage".  On an empty
feed, or when the fetch/parse raised, control reaches the final
`return` whose dict literal reads the local variable `issue_link`
(line 829) that was never assigned, so the function raises `NameError`
instead of returning; this is modelled by `Except.error`. -/
def get_perplexity_status (fetched : Option (List FeedEntry)) :
    Except String (List (String × String)) :=
  match fetched with
  | some (latest :: _) =>
      let d := lowerStr latest.description
      let isOp := strContains d "resolved" && !(strContains d "api outage")
      .ok [("name", "Perplexity API Status"),
           ("status", if isOp then "Operational" else "Disrupted"),
           ("status_url", "https://status.perplexity.com"),
           ("issue_link", latest.link)]
  | some [] => .error "NameError: name issue_link is not defined"
  | none => .error "NameError: name issue_link is not defined"

/-- Fallback record of `get_gcp_status`, lines 932-937. -/
def gcp_fallback : List (String × String) :=
  [("name", "Google Cloud Platform Status (Global)"), ("status", "Unknown"),
   ("status_url", "https://status.cloud.google.com"),
   ("issue_link", placeholderIssueLink)]

/-- `get_gcp_status`, `src/helpers.py` lines 890-937: operational iff
the lowercased title of the latest entry contains "resolved:". -/
def get_gcp_status (fetched : Option (List FeedEntry)) : List (String × String) :=
  match fetched with
  | some (latest :: _) =>
      let isOp := strContains (lowerStr latest.title) "resolved:"
      [("name", "Google Cloud Platform Status (Global)"),
       ("status", if isOp then "Operational" else "Disrupted"),
       ("status_url", "https://status.cloud.google.com"),
       ("issue_link", placeholderIssueLink)]
  | some [] => gcp_fallback
  | none => gcp_fallback

/-- `get_azure_status`, `src/helpers.py` lines 939-986: any entry in
the incident feed means Disrupted; an empty feed returns Operational
(lines 969-977); only an exception yields the Unknown fallback. -/
def get_azure_status (fetched : Option (List FeedEntry)) : List (String × String) :=
  match fetched with
  | some (_ :: _) =>
      [("name", "Microsoft Azure Status US"), ("status", "Disrupted"),
       ("status_url", "https://status.azure.com"), ("issue_link", placeholderIssueLink)]
  | some [] =>
      [("name", "Microsoft Azure Status US"), ("status", "Operational"),
       ("status_url", "https://status.azure.com"), ("issue_link", placeholderIssueLink)]
  | none =>
      [("name", "Microsoft Azure Status US"), ("status", "Unknown"),
       ("status_url", "https://status.azure.com"), ("issue_link", placeholderIssueLink)]

/-- `get_aws_status`, `src/helpers.py` lines 988-1036: same incident
feed rule as Azure. -/
def get_aws_status (fetched : Option (List FeedEntry)) : List (String × String) :=
  match fetched with
  | some (_ :: _) =>
      [("name", "Amazon Web Service (AWS) Global Cloud Status"), ("status", "Disrupted"),
       ("status_url", "https://health.aws.amazon.com/health/status"),
       ("issue_link", placeholderIssueLink)]
  | some [] =>
      [("name", "Amazon Web Service (AWS) Global Cloud Status"), ("status", "Operational"),
       ("status_url", "https://health.aws.amazon.com/health/status"),
       ("issue_link", placeholderIssueLink)]
  | none =>
      [("name", "Amazon Web Service (AWS) Global Cloud Status"), ("status", "Unknown"),
       ("status_url", "https://health.aws.amazon.com/health/status"),
       ("issue_link", placeholderIssueLink)]

/-- What `get_dify_status` observes: whether the wait for
`div.page-status.status-none` succeeded, and the texts of the `h2`
elements below it. -/
structure DifyPage where
  statusNoneFound : Bool
  h2Texts : List String
deriving Repr, DecidableEq

/-- `get_dify_status`, `src/helpers.py` lines 440-608: operational iff
some `h2` under `div.page-status.status-none` contains
"all systems operational"; a failed wait or driver failure yields the
Unknown fallback. -/
def get_dify_status (page : Option DifyPage) : List (String × String) :=
  match page with
  | some p =>
      if p.statusNoneFound then
        let isOp := p.h2Texts.any fun t =>
          strContains (lowerStr t.trim) "all systems operational"
        [("name", "Dify.AI API Status"),
         ("status", if isOp then "Operational" else "Disrupted"),
         ("status_url", "https://dify.statuspage.io/"),
         ("issue_link", placeholderIssueLink)]
      else
        [("name", "Dify.AI API Status"), ("status", "Unknown"),
         ("status_url", "https://dify.statuspage.io/"),
         ("issue_link", placeholderIssueLink)]
  | none =>
      [("name", "Dify.AI API Status"), ("status", "Unknown"),
       ("status_url", "https://dify.statuspage.io/"),
       ("issue_link", placeholderIssueLink)]

/-- What `get_alicloud_status` observes: whether the wait for
`cms-title-noEvent-child` succeeded, and the text of that element. -/
structure AlicloudPage where
  noEventChildFound : Bool
  text : String
deriving Repr, DecidableEq

/-- `get_alicloud_status`, `src/helpers.py` lines 1039-1207:
operational iff the `cms-title-noEvent-child` text contains
"no incident, everything is normal"; a failed wait or driver failure
yields the Unknown fallback. -/
def get_alicloud_status (page : Option AlicloudPage) : List (String × String) :=
  match page with
  | some p =>
      if p.noEventChildFound then
        let isOp := strContains (lowerStr p.text.trim) "no incident, everything is normal"
        [("name", "Alibaba Cloud Health Status"),
         ("status", if isOp then "Operational" else "Disrupted"),
         ("status_url", "https://status.alibabacloud.com"),
         ("issue_link", placeholderIssueLink)]
      else
        [("name", "Alibaba Cloud Health Status"), ("status", "Unknown"),
         ("status_url", "https://status.alibabacloud.com"),
         ("issue_link", placeholderIssueLink)]
  | none =>
      [("name", "Alibaba Cloud Health Status"), ("status", "Unknown"),
       ("status_url", "https://status.alibabacloud.com"),
       ("issue_link", placeholderIssueLink)]

/-- Outcome of one task under `asyncio.gather(..., return_exceptions=True)`
in `fetch_all_statuses` (`src/app_main.py` line 143-154): either the
record the helper returned, or the exception it raised, carried as its
message. -/
inductive TaskResult where
  | ok (record : List (String × String))
  | exn (msg : String)
deriving Repr, DecidableEq

/-- The nine configured services, `src/app_main.py` line 161. -/
def service_names : List String :=
  ["openai", "deepseek", "gemini", "anthropic", "perplexity",
   "langsmith", "aws", "gcp", "azure"]

/-- The substitute record built in `fetch_all_statuses` when a task
raised, `src/app_main.py` lines 165-174.  Python `service_name.title()`
on the single lowercase service words is modelled by
`String.capitalize`.  Note the record has no `issue_link` key and its
`status_url` is the literal `"#"`. -/
def coord_error_record (service_name err_msg : String) : List (String × String) :=
  [("name", service_name.capitalize ++ " Status"),
   ("status", "Unknown"),
   ("status_url", "#"),
   ("last_update", "N/A"),
   ("title", "Error"),
   ("description", "Error: " ++ err_msg)]

/-- `fetch_all_statuses`, `src/app_main.py` lines 130-195: zips the nine
service names with the gathered task results and builds the result
mapping; an exception result is replaced by `coord_error_record`, a
returned record is kept (the datetime-serialisation loop at lines
176-183 is the identity on the string-valued records modelled here). -/
def fetch_all_statuses (results : List TaskResult) :
    List (String × List (String × String)) :=
  (service_names.zip results).map fun p =>
    match p.2 with
    | .exn msg => (p.1, coord_error_record p.1 msg)
    | .ok record => (p.1, record)

/-- The Streamlit session state used for caching,
`src/app_main.py` lines 18-23; timestamps are seconds. -/
structure SessionState where
  cached_statuses : Option (List (String × List (String × String)))
  cache_timestamp : Option Nat
  last_refresh : Option Nat
deriving Repr, DecidableEq

/-- Python `(current_time - cache_timestamp).seconds`: the seconds
component of the timedelta after removing whole days (for
`t ≤ now`). -/
def delta_seconds (now t : Nat) : Nat := (now - t) % 86400

/-- The `should_refresh` condition of `main`, `src/app_main.py`
lines 229-233: refresh when no cached statuses, no timestamp, or the
seconds component of the age exceeds 60. -/
def should_refresh (s : SessionState) (now : Nat) : Bool :=
  s.cached_statuses.isNone ||
  match s.cache_timestamp with
  | none => true
  | some t => decide (delta_seconds now t > 60)

/-- The refresh-or-serve-cached step of `main`, `src/app_main.py`
lines 235-246: on refresh, the freshly fetched statuses are stored with
the current time and returned together with the flag that a new
aggregation cycle ran; otherwise the cached statuses are returned, the
state is untouched, and no cycle runs. -/
def refresh_step (s : SessionState) (now : Nat)
    (fetched : List (String × List (String × String))) :
    List (String × List (String × String)) × SessionState × Bool :=
  if should_refresh s now then
    (fetched,
     { cached_statuses := some fetched, cache_timestamp := some now,
       last_refresh := some now },
     true)
  else
    (s.cached_statuses.getD [], s, false)

/-- The three admissible status strings of the data model. -/
def validStatus (s : String) : Bool :=
  s == "Operational" || s == "Disrupted" || s == "Unknown"

/-- A status record is well formed when the four keys `name`, `status`,
`status_url`, `issue_link` are present and the status value is one of
Operational, Disrupted, Unknown. -/
def recordWellFormed (r : List (String × String)) : Bool :=
  (r.lookup "name").isSome && (r.lookup "status").isSome &&
  (r.lookup "status_url").isSome && (r.lookup "issue_link").isSome &&
  (match r.lookup "status" with
   | some s => validStatus s
   | none => false)

/-- Well-formedness lifted to a fallible helper: every record actually
returned (the `.ok` case) is well formed; a raised exception returns no
record. -/
def exceptRecordWellFormed (r : Except String (List (String × String))) : Bool :=
  match r with
  | .ok record => recordWellFormed record
  | .error _ => true

/-- The negative keyword set named by the specification for
negative-keyword feed sources.  Modelled from the spec (section 4.4);
it appears nowhere in `src/helpers.py` and is defined here only to
compare the spec rule with the code rule. -/
def specNegativeKeywords : List String :=
  ["degraded", "elevated", "outage", "latency", "failing"]

/-- The classification the spec prescribes for a negative-keyword feed
source.  Modelled from the spec (section 4.4): Disrupted iff some
keyword of `specNegativeKeywords` appears in the body, Operational
otherwise. -/
def specNegativeKeywordStatus (body : String) : String :=
  if specNegativeKeywords.any (fun k => strContains (lowerStr body) k)
  then "Disrupted" else "Operational"

/-! Helper lemmas shared by the claim theorems. -/

theorem lookup_quad_name (nv sv uv iv : String) :
    List.lookup "name"
      [("name", nv), ("status", sv), ("status_url", uv), ("issue_link", iv)] = some nv := rfl

theorem lookup_quad_status (nv sv uv iv : String) :
    List.lookup "status"
      [("name", nv), ("status", sv), ("status_url", uv), ("issue_link", iv)] = some sv := rfl

theorem lookup_quad_url (nv sv uv iv : String) :
    List.lookup "status_url"
      [("name", nv), ("status", sv), ("status_url", uv), ("issue_link", iv)] = some uv := rfl

theorem lookup_quad_issue (nv sv uv iv : String) :
    List.lookup "issue_link"
      [("name", nv), ("status", sv), ("status_url", uv), ("issue_link", iv)] = some iv := rfl

theorem validStatus_ite (c : Bool) :
    validStatus (if c then "Operational" else "Disrupted") = true := by
  cases c <;> rfl

theorem recordWellFormed_quad (nv sv uv iv : String) (h : validStatus sv = true) :
    recordWellFormed
      [("name", nv), ("status", sv), ("status_url", uv), ("issue_link", iv)] = true := by
  unfold recordWellFormed
  rw [lookup_quad_name, lookup_quad_status, lookup_quad_url, lookup_quad_issue]
  simp [h]

theorem map_fst_zip_of_le {α β : Type} :
    ∀ (l₁ : List α) (l₂ : List β), l₁.length ≤ l₂.length →
      (l₁.zip l₂).map Prod.fst = l₁ := by
  intro l₁
  induction l₁ with
  | nil => intro l₂ _; rfl
  | cons a as ih =>
      intro l₂ h
      cases l₂ with
      | nil => simp at h
      | cons b bs =>
          simp only [List.zip_cons_cons, List.map_cons]
          rw [ih bs (by simpa using h)]

theorem zipMapNth {α β γ δ : Type} (f : α → β → γ × δ) :
    ∀ (l₁ : List α) (l₂ : List β) (i : Nat) (a : α) (b : β),
      l₁[i]? = some a → l₂[i]? = some b →
      ((l₁.zip l₂).map fun p => f p.1 p.2)[i]? = some (f a b) := by
  intro l₁
  induction l₁ with
  | nil => intro l₂ i a b h1 _; simp at h1
  | cons x xs ih =>
      intro l₂ i a b h1 h2
      cases l₂ with
      | nil => simp at h2
      | cons y ys =>
          cases i with
          | zero =>
              simp at h1 h2
              simp [h1, h2]
          | succ j =>
              simp at h1 h2
              simpa using ih ys j a b h1 h2

/-- The keys of the coordinator output are exactly the configured
service names, whatever the task results were. -/
theorem fetch_all_statuses_keys (results : List TaskResult)
    (h : 9 ≤ results.length) :
    (fetch_all_statuses results).map Prod.fst = service_names := by
  unfold fetch_all_statuses
  rw [List.map_map]
  have hf : (Prod.fst ∘ fun p : String × TaskResult =>
      match p.2 with
      | .exn msg => (p.1, coord_error_record p.1 msg)
      | .ok record => (p.1, record)) = Prod.fst := by
    funext p
    rcases p with ⟨n, r⟩
    cases r <;> rfl
  rw [hf]
  exact map_fst_zip_of_le _ _ (by simpa [service_names] using h)

/-- C1: for every invocation of the aggregation cycle with its nine
gathered task results, `fetch_all_statuses` returns a mapping whose
keys are exactly the nine configured service names, each exactly once,
regardless of whether the individual per-source tasks returned records
or raised. -/
theorem C1_cycle_complete_mapping (results : List TaskResult)
    (h : results.length = 9) :
    (fetch_all_statuses results).map Prod.fst = service_names ∧
    service_names.Nodup :=
  ⟨fetch_all_statuses_keys results (by omega), by decide⟩

/-- Witness for C1 at a concrete mix of returned records and raised
exceptions. -/
theorem C1_cycle_complete_mapping_witness :
    ([TaskResult.exn "boom", TaskResult.ok (get_deepseek_status none),
      TaskResult.ok (get_dify_status none), TaskResult.exn "timeout",
      TaskResult.ok [], TaskResult.ok (get_langsmith_status none),
      TaskResult.ok (get_aws_status (some [])),
      TaskResult.ok (get_gcp_status none), TaskResult.exn "closed"] :
        List TaskResult).length = 9 ∧
    (fetch_all_statuses
      [TaskResult.exn "boom", TaskResult.ok (get_deepseek_status none),
       TaskResult.ok (get_dify_status none), TaskResult.exn "timeout",
       TaskResult.ok [], TaskResult.ok (get_langsmith_status none),
       TaskResult.ok (get_aws_status (some [])),
       TaskResult.ok (get_gcp_status none), TaskResult.exn "closed"]).map
        Prod.fst = service_names :=
  ⟨rfl, (C1_cycle_complete_mapping
    [TaskResult.exn "boom", TaskResult.ok (get_deepseek_status none),
     TaskResult.ok (get_dify_status none), TaskResult.exn "timeout",
     TaskResult.ok [], TaskResult.ok (get_langsmith_status none),
     TaskResult.ok (get_aws_status (some [])),
     TaskResult.ok (get_gcp_status none), TaskResult.exn "closed"] rfl).1⟩

/-- C2 counterexample: when the openai task raises, the substituted
record carries the literal status_url "#", which is not the status page
URL of the source, and it has no issue_link key at all; so the claim
that the statusUrl is copied from the descriptor and a placeholder
issueLink is present fails. -/
theorem C2_error_substitution_cex :
    ∃ rec,
      (fetch_all_statuses
        (TaskResult.exn "boom" :: List.replicate 8 (TaskResult.exn "down"))).lookup
          "openai" = some rec ∧
      rec.lookup "status" = some "Unknown" ∧
      rec.lookup "status_url" = some "#" ∧
      "#" ≠ openai_status_url ∧
      rec.lookup "issue_link" = none :=
  ⟨coord_error_record "openai" "boom", rfl, rfl, rfl, by decide, rfl⟩

/-- C2 as amended: for every task that raised, the coordinator
substitutes `coord_error_record`, whose status is Unknown, whose
status_url is the fixed placeholder "#" (not the descriptor URL), and
which contains no issue_link key (the error text is carried in the
description field); the cycle still produces an entry for every
configured service. -/
theorem C2_error_substitution (results : List TaskResult) (i : Nat)
    (name msg : String) (h : results.length = 9)
    (hn : service_names[i]? = some name)
    (hr : results[i]? = some (TaskResult.exn msg)) :
    (fetch_all_statuses results)[i]? = some (name, coord_error_record name msg) ∧
    (coord_error_record name msg).lookup "status" = some "Unknown" ∧
    (coord_error_record name msg).lookup "status_url" = some "#" ∧
    (coord_error_record name msg).lookup "issue_link" = none ∧
    (coord_error_record name msg).lookup "description" = some ("Error: " ++ msg) ∧
    (fetch_all_statuses results).map Prod.fst = service_names := by
  refine ⟨?_, rfl, rfl, rfl, rfl, fetch_all_statuses_keys results (by omega)⟩
  have := zipMapNth
    (fun (n : String) (r : TaskResult) =>
      match r with
      | .exn msg => (n, coord_error_record n msg)
      | .ok record => (n, record))
    service_names results i name (TaskResult.exn msg) hn hr
  simpa [fetch_all_statuses] using this

/-- Witness for C2 at the concrete cycle where the anthropic task (index
3) raised. -/
theorem C2_error_substitution_witness :
    (fetch_all_statuses
      [TaskResult.ok [], TaskResult.ok [], TaskResult.ok [],
       TaskResult.exn "boom", TaskResult.ok [], TaskResult.ok [],
       TaskResult.ok [], TaskResult.ok [], TaskResult.ok []])[3]? =
      some ("anthropic", coord_error_record "anthropic" "boom") ∧
    (coord_error_record "anthropic" "boom").lookup "status" = some "Unknown" ∧
    (coord_error_record "anthropic" "boom").lookup "status_url" = some "#" ∧
    (coord_error_record "anthropic" "boom").lookup "issue_link" = none := by
  have := C2_error_substitution
    [TaskResult.ok [], TaskResult.ok [], TaskResult.ok [],
     TaskResult.exn "boom", TaskResult.ok [], TaskResult.ok [],
     TaskResult.ok [], TaskResult.ok [], TaskResult.ok []]
    3 "anthropic" "boom" rfl rfl rfl
  exact ⟨this.1, this.2.1, this.2.2.1, this.2.2.2.1⟩

/-- C3 counterexample: `get_azure_status` on a feed that parsed with
zero entries returns Operational, not Unknown, so the claim fails for
the Azure source. -/
theorem C3_empty_feed_cex :
    (get_azure_status (some [])).lookup "status" = some "Operational" ∧
    "Operational" ≠ "Unknown" :=
  ⟨rfl, by decide⟩

/-- C3 as amended: on an empty or unparsable document `get_openai_status`
returns Unknown (both when the parsed feed has no entries and when the
fetch raised), but `get_azure_status` treats an entry-less incident feed
as Operational by design and returns Unknown only when the fetch
raised. -/
theorem C3_empty_feed_unknown :
    (get_openai_status (some [])).lookup "status" = some "Unknown" ∧
    (get_openai_status none).lookup "status" = some "Unknown" ∧
    (get_azure_status (some [])).lookup "status" = some "Operational" ∧
    (get_azure_status none).lookup "status" = some "Unknown" :=
  ⟨rfl, rfl, rfl, rfl⟩

/-- Characterisation of the perplexity classifier on a feed with
entries: the record is returned with the status decided by
"resolved" present and "api outage" absent in the latest description. -/
theorem perplexity_ok_record (e : FeedEntry) (rest : List FeedEntry) :
    get_perplexity_status (some (e :: rest)) =
      Except.ok
        [("name", "Perplexity API Status"),
         ("status",
           if strContains (lowerStr e.description) "resolved" &&
              !(strContains (lowerStr e.description) "api outage")
           then "Operational" else "Disrupted"),
         ("status_url", "https://status.perplexity.com"),
         ("issue_link", e.link)] := rfl

/-- C4 counterexample: the latest-entry body
"Resolved: elevated latency has recovered." contains the keywords
elevated and latency, so the spec rule classifies it Disrupted, but the
code classifies it Operational (it contains "resolved" and not
"api outage"); the claimed iff therefore fails on this input. -/
theorem C4_negative_keyword_cex :
    specNegativeKeywordStatus "Resolved: elevated latency has recovered." =
      "Disrupted" ∧
    (∃ rec,
      get_perplexity_status
        (some [⟨"Incident", "https://status.perplexity.com/incidents/1",
               "Resolved: elevated latency has recovered.", ""⟩]) =
        Except.ok rec ∧
      rec.lookup "status" = some "Operational") ∧
    "Operational" ≠ "Disrupted" :=
  ⟨by decide, ⟨_, rfl, by decide⟩, by decide⟩

/-- C4 as amended: `get_perplexity_status` does not use the
negative-keyword set at all; on a feed with entries it returns
Operational iff the latest description contains "resolved" and does not
contain "api outage", and Disrupted otherwise.  The body
"We are investigating elevated error rates." classifies as Disrupted,
though because it lacks "resolved", not because "elevated" is
matched. -/
theorem C4_negative_keyword_rule :
    (∀ (e : FeedEntry) (rest : List FeedEntry),
      ∃ rec,
        get_perplexity_status (some (e :: rest)) = Except.ok rec ∧
        (rec.lookup "status" = some "Operational" ↔
          strContains (lowerStr e.description) "resolved" = true ∧
          strContains (lowerStr e.description) "api outage" = false) ∧
        (rec.lookup "status" = some "Operational" ∨
         rec.lookup "status" = some "Disrupted")) ∧
    (∃ rec,
      get_perplexity_status
        (some [⟨"Investigating", "https://status.perplexity.com/incidents/2",
               "We are investigating elevated error rates.", ""⟩]) =
        Except.ok rec ∧
      rec.lookup "status" = some "Disrupted") := by
  constructor
  · intro e rest
    refine ⟨_, perplexity_ok_record e rest, ?_, ?_⟩
    · rw [lookup_quad_status]
      cases hr : strContains (lowerStr e.description) "resolved" <;>
        cases ho : strContains (lowerStr e.description) "api outage" <;>
          simp
    · rw [lookup_quad_status]
      cases hr : strContains (lowerStr e.description) "resolved" <;>
        cases ho : strContains (lowerStr e.description) "api outage" <;>
          simp
  · exact ⟨_, rfl, by decide⟩

/-- C5 counterexample.  The two functions the claim cites as examples
have no behavior at all: the source of `get_llamaindex_status` does not
parse (`src/helpers.py` line 399 over-indents the status_url
assignment) and neither does `get_gemini_status` (line 771 holds an
except at indent 8 whose enclosing try at line 634, indent 4, is left
with no handler), so the module cannot even be imported, let alone
return a status there.  The universal claim also covers the sources
whose code does parse, and there it is false concretely:
`get_dify_status`, after a successful fetch in which the wait for the
`div.page-status.status-none` container succeeded but zero `h2`
elements — the text anchor its rule inspects — are found below it,
returns Disrupted, not Unknown. -/
theorem C5_anchor_disrupted_cex :
    (get_dify_status (some ⟨true, []⟩)).lookup "status" = some "Disrupted" ∧
    "Disrupted" ≠ "Unknown" :=
  ⟨rfl, by decide⟩

/-- C5 as amended.  For the sources whose code parses, a successful
fetch whose rule cannot locate its expected inner anchor yields
Disrupted: `get_dify_status` with the status container present but no
`h2` element below it returns Disrupted.  Unknown is reserved for the
case where the wait for the container element itself fails
(`get_dify_status` and `get_alicloud_status` both return Unknown
then).  The two examples named by the claim, `get_gemini_status` and
`get_llamaindex_status`, cannot be settled against the source because
their code does not parse (`src/helpers.py` lines 399 and 771) and so
defines no behavior. -/
theorem C5_anchor_disrupted :
    (get_dify_status (some ⟨true, []⟩)).lookup "status" = some "Disrupted" ∧
    (∀ h2s : List String,
      (get_dify_status (some ⟨false, h2s⟩)).lookup "status" = some "Unknown") ∧
    (∀ t : String,
      (get_alicloud_status (some ⟨false, t⟩)).lookup "status" = some "Unknown") :=
  ⟨rfl, fun _ => rfl, fun _ => rfl⟩

/-- C6: `get_perplexity_status` does not return an Unknown record when
the document yields no entries or the fetch raises: its final fallback
return reads the never-assigned local `issue_link`, so the call raises
NameError instead of returning. -/
theorem C6_perplexity_raises :
    get_perplexity_status (some []) =
      Except.error "NameError: name issue_link is not defined" ∧
    get_perplexity_status none =
      Except.error "NameError: name issue_link is not defined" :=
  ⟨rfl, rfl⟩

/-- C7 counterexample: `get_langsmith_status` hands its URL directly to
`feedparser.parse` — it does not go through the pooled retry session at
all. -/
theorem C7_pooled_session_cex :
    fetch_method "langsmith" = FetchMethod.feedparserDirect ∧
    FetchMethod.feedparserDirect ≠ FetchMethod.pooledSession :=
  ⟨rfl, by decide⟩

/-- C7 as amended: only the openai, deepseek and llamaindex helpers
fetch through the shared pooled session configured in
`get_http_session` (retry total 3, backoff factor 1, retried statuses
429, 500, 502, 503, 504, and a timeout attribute of 10 set on the
session); langsmith, perplexity, anthropic, gcp, azure and aws hand
their URL directly to `feedparser.parse`, bypassing that session and
its retry policy. -/
theorem C7_pooled_session :
    fetch_method "openai" = FetchMethod.pooledSession ∧
    fetch_method "deepseek" = FetchMethod.pooledSession ∧
    fetch_method "llamaindex" = FetchMethod.pooledSession ∧
    fetch_method "langsmith" = FetchMethod.feedparserDirect ∧
    fetch_method "perplexity" = FetchMethod.feedparserDirect ∧
    fetch_method "anthropic" = FetchMethod.feedparserDirect ∧
    fetch_method "gcp" = FetchMethod.feedparserDirect ∧
    fetch_method "azure" = FetchMethod.feedparserDirect ∧
    fetch_method "aws" = FetchMethod.feedparserDirect ∧
    http_session_retry =
      { total := 3, backoff_factor := 1,
        status_forcelist := [429, 500, 502, 503, 504] } ∧
    http_session_timeout_attr = 10 :=
  ⟨rfl, rfl, rfl, rfl, rfl, rfl, rfl, rfl, rfl, rfl, rfl⟩

/-- C8: if a refresh request arrives while cached statuses exist whose
age is at most 60 seconds, the cached statuses are returned, the session
state is unchanged (same cache timestamp) and no aggregation cycle runs
(flag `false`); a second request still inside the window returns the
same statuses with the same stored timestamp. -/
theorem C8_ttl_cache_idempotent (s : SessionState)
    (snap : List (String × List (String × String))) (t now now2 : Nat)
    (f f2 : List (String × List (String × String)))
    (hc : s.cached_statuses = some snap) (ht : s.cache_timestamp = some t)
    (h1 : t ≤ now) (h2 : now - t ≤ 60) (h3 : t ≤ now2) (h4 : now2 - t ≤ 60) :
    refresh_step s now f = (snap, s, false) ∧
    refresh_step (refresh_step s now f).2.1 now2 f2 = (snap, s, false) ∧
    (refresh_step (refresh_step s now f).2.1 now2 f2).2.1.cache_timestamp =
      some t := by
  have key : ∀ m, t ≤ m → m - t ≤ 60 → should_refresh s m = false := by
    intro m hm1 hm2
    unfold should_refresh
    rw [hc, ht]
    have hmod : (m - t) % 86400 = m - t := Nat.mod_eq_of_lt (by omega)
    simp [delta_seconds, hmod]
    omega
  have r1 : refresh_step s now f = (snap, s, false) := by
    unfold refresh_step
    rw [key now h1 h2]
    simp [hc]
  have r2 : refresh_step (refresh_step s now f).2.1 now2 f2 =
      (snap, s, false) := by
    rw [r1]
    unfold refresh_step
    rw [key now2 h3 h4]
    simp [hc]
  exact ⟨r1, r2, by rw [r2]; exact ht⟩

/-- Witness for C8: a cache filled at time 100 is served unchanged at
times 130 and 155. -/
theorem C8_ttl_cache_idempotent_witness :
    refresh_step
      ⟨some [("openai", openai_fallback)], some 100, some 100⟩ 130
      [("openai", [])] =
      ([("openai", openai_fallback)],
       ⟨some [("openai", openai_fallback)], some 100, some 100⟩, false) ∧
    refresh_step
      (refresh_step
        ⟨some [("openai", openai_fallback)], some 100, some 100⟩ 130
        [("openai", [])]).2.1 155 [] =
      ([("openai", openai_fallback)],
       ⟨some [("openai", openai_fallback)], some 100, some 100⟩, false) := by
  have := C8_ttl_cache_idempotent
    ⟨some [("openai", openai_fallback)], some 100, some 100⟩
    [("openai", openai_fallback)] 100 130 155 [("openai", [])] []
    rfl rfl (by omega) (by omega) (by omega) (by omega)
  exact ⟨this.1, this.2.1⟩

/-- C9: whenever the lowercased description of the latest feed entry
contains the phrase "all impacted services have now fully recovered",
`get_openai_status` returns status Operational. -/
theorem C9_openai_resolution (e : FeedEntry) (rest : List FeedEntry)
    (h : strContains (lowerStr e.description)
      "all impacted services have now fully recovered" = true) :
    (get_openai_status (some (e :: rest))).lookup "status" =
      some "Operational" := by
  have : get_openai_status (some (e :: rest)) =
      [("name", "OpenAI API Status"), ("status", "Operational"),
       ("status_url", openai_status_url), ("issue_link", e.link)] := by
    simp [get_openai_status, h]
  rw [this]; rfl

/-- Witness for C9: the concrete body
"All impacted services have now fully recovered." classifies as
Operational. -/
theorem C9_openai_resolution_witness :
    strContains (lowerStr "All impacted services have now fully recovered.")
      "all impacted services have now fully recovered" = true ∧
    (get_openai_status
      (some [⟨"Incident resolved", "https://status.openai.com/incidents/1",
             "All impacted services have now fully recovered.", ""⟩])).lookup
        "status" = some "Operational" :=
  ⟨by decide,
   C9_openai_resolution
     ⟨"Incident resolved", "https://status.openai.com/incidents/1",
      "All impacted services have now fully recovered.", ""⟩ [] (by decide)⟩

/-! Per-function record shape lemmas feeding C10. -/

theorem openai_wf (f : Option (List FeedEntry)) :
    recordWellFormed (get_openai_status f) = true := by
  rcases f with _ | ⟨_ | ⟨e, rest⟩⟩
  · rfl
  · rfl
  · exact recordWellFormed_quad _ _ _ _ (validStatus_ite _)

theorem deepseek_wf (f : Option (List FeedEntry)) :
    recordWellFormed (get_deepseek_status f) = true := by
  rcases f with _ | ⟨_ | ⟨e, rest⟩⟩
  · rfl
  · rfl
  · exact recordWellFormed_quad _ _ _ _ (validStatus_ite _)

theorem langsmith_wf (f : Option (List FeedEntry)) :
    recordWellFormed (get_langsmith_status f) = true := by
  rcases f with _ | ⟨_ | ⟨e, rest⟩⟩
  · rfl
  · rfl
  · exact recordWellFormed_quad _ _ _ _ (validStatus_ite _)

theorem anthropic_wf (f : Option (List FeedEntry)) :
    recordWellFormed (get_anthropic_status f) = true := by
  rcases f with _ | ⟨_ | ⟨e, rest⟩⟩
  · rfl
  · rfl
  · exact recordWellFormed_quad _ _ _ _ (validStatus_ite _)

theorem perplexity_wf (f : Option (List FeedEntry)) :
    exceptRecordWellFormed (get_perplexity_status f) = true := by
  rcases f with _ | ⟨_ | ⟨e, rest⟩⟩
  · rfl
  · rfl
  · exact recordWellFormed_quad _ _ _ _ (validStatus_ite _)

theorem gcp_wf (f : Option (List FeedEntry)) :
    recordWellFormed (get_gcp_status f) = true := by
  rcases f with _ | ⟨_ | ⟨e, rest⟩⟩
  · rfl
  · rfl
  · exact recordWellFormed_quad _ _ _ _ (validStatus_ite _)

theorem azure_wf (f : Option (List FeedEntry)) :
    recordWellFormed (get_azure_status f) = true := by
  rcases f with _ | ⟨_ | ⟨e, rest⟩⟩ <;> rfl

theorem aws_wf (f : Option (List FeedEntry)) :
    recordWellFormed (get_aws_status f) = true := by
  rcases f with _ | ⟨_ | ⟨e, rest⟩⟩ <;> rfl

theorem dify_wf (p : Option DifyPage) :
    recordWellFormed (get_dify_status p) = true := by
  rcases p with _ | ⟨found, h2s⟩
  · rfl
  · cases found
    · rfl
    · exact recordWellFormed_quad _ _ _ _ (validStatus_ite _)

theorem alicloud_wf (p : Option AlicloudPage) :
    recordWellFormed (get_alicloud_status p) = true := by
  rcases p with _ | ⟨found, txt⟩
  · rfl
  · cases found
    · rfl
    · exact recordWellFormed_quad _ _ _ _ (validStatus_ite _)

/-- C10: every record any per-source status function actually returns
has the keys name, status, status_url and issue_link, and its status
value is Operational, Disrupted or Unknown.  For the fallible
perplexity helper this covers every record it actually returns (its
failure paths raise NameError and return nothing).  The two remaining
helpers named by the claim, `get_gemini_status` and
`get_llamaindex_status`, are not embedded here: their source does not
parse (`src/helpers.py` lines 399 and 771), so they never return any
record and the whenever-a-record-is-returned condition is vacuous for
them; the theorem covers the ten helpers whose code parses. -/
theorem C10_record_shape
    (fo fd fl fa fp fg fz fw : Option (List FeedEntry))
    (pd : Option DifyPage) (pa : Option AlicloudPage) :
    recordWellFormed (get_openai_status fo) = true ∧
    recordWellFormed (get_deepseek_status fd) = true ∧
    recordWellFormed (get_langsmith_status fl) = true ∧
    recordWellFormed (get_anthropic_status fa) = true ∧
    exceptRecordWellFormed (get_perplexity_status fp) = true ∧
    recordWellFormed (get_gcp_status fg) = true ∧
    recordWellFormed (get_azure_status fz) = true ∧
    recordWellFormed (get_aws_status fw) = true ∧
    recordWellFormed (get_dify_status pd) = true ∧
    recordWellFormed (get_alicloud_status pa) = true :=
  ⟨openai_wf fo, deepseek_wf fd, langsmith_wf fl, anthropic_wf fa,
   perplexity_wf fp, gcp_wf fg, azure_wf fz, aws_wf fw,
   dify_wf pd, alicloud_wf pa⟩

end Dashboard
